import Mathlib

set_option linter.unusedVariables false

/-!
Verification of the Intelligence Core of the vas-vector-analytical-systems
repository: a shallow embedding, over exact rational (and, where square
roots occur, real) arithmetic, of the feature-engineering, model-training,
prediction/snapshot, drift-detection, exploration, optimization and
correlation modules, together with theorems settling the specification
claims about them.

Numbers: the source computes with JS doubles; the embedding uses `Rat`
(and `Real` for the functions that call `Math.sqrt`), so arithmetic is
exact.  Decimal literals of the source are written as the corresponding
fractions.  JS `x / 0` yields `Infinity`/`NaN`; in the embedding division
by zero yields `0`.  All divisions reached by the theorems below are
guarded by the source's own checks, so the difference is not observable
in any statement proved here.

JS plain objects (`Record<string, number>`) are modelled as ordered
association lists `List (String × ℚ)`: `Object.keys` enumeration order is
the list order, `obj[k] ?? 0` is `recGetD`.
-/

/-- Value of key `k` in an association list, with default `d`
(JS `obj[k] ?? d`). -/
def recGetD (m : List (String × ℚ)) (k : String) (d : ℚ) : ℚ :=
  ((m.find? fun p => p.1 == k).map Prod.snd).getD d

/-! ## Feature Engineering (src/unnamed/part_006, feature-engineering) -/

/-- Per-feature normalization statistics (interface `FeatureStats`). -/
structure FeatureStats where
  min : ℚ
  max : ℚ
  mean : ℚ
  stdDev : ℚ
deriving Repr, DecidableEq

/-- Lookup of a feature's stats (JS `stats[key]`, `undefined` when absent). -/
def statsGet (stats : List (String × FeatureStats)) (k : String) : Option FeatureStats :=
  (stats.find? fun p => p.1 == k).map Prod.snd

/-- `normalizeFeatures(features, stats)` from feature-engineering: each
entry is min-max normalized and clamped to [0,1]; a missing stats entry or
a degenerate `max === min` yields 0. -/
def normalizeFeatures (features : List (String × ℚ))
    (stats : List (String × FeatureStats)) : List (String × ℚ) :=
  features.map fun p =>
    match statsGet stats p.1 with
    | none => (p.1, 0)
    | some s =>
      if s.max = s.min then (p.1, 0)
      else (p.1, max 0 (min 1 ((p.2 - s.min) / (s.max - s.min))))

/-! ## Model Training (src/server/intelligence-core/model-training.ts) -/

/-- A dataset record as consumed by training (interface `DatasetRecord`);
`createdAt` is epoch time, `none` for a null date. -/
structure DatasetRecord where
  normalizedFeatures : List (String × ℚ)
  targetValue : ℚ
  createdAt : Option Int
deriving Repr, DecidableEq

/-- Result record of `trainModel` (interface `TrainResult`). -/
structure TrainResult where
  coefficients : List ℚ
  intercept : ℚ
  featureNames : List String
  rSquared : ℚ
  mae : ℚ
  tierAccuracy : ℚ
  directionalAccuracy : ℚ
  trainSampleCount : ℕ
  testSampleCount : ℕ
deriving Repr, DecidableEq

/-- Matrices are ragged row lists, as in the source (`type Matrix = number[][]`). -/
abbrev Mat := List (List ℚ)

/-- `matrixTranspose`: result[j][i] = a[i][j]. -/
def matrixTranspose (a : Mat) : Mat :=
  let rows := a.length
  let cols := (a.headD []).length
  (List.range cols).map fun j => (List.range rows).map fun i => (a.getD i []).getD j 0

/-- `matrixMultiply`. -/
def matrixMultiply (a b : Mat) : Mat :=
  let aRows := a.length
  let aCols := (a.headD []).length
  let bCols := (b.headD []).length
  (List.range aRows).map fun i => (List.range bCols).map fun j =>
    ((List.range aCols).map fun k => (a.getD i []).getD k 0 * (b.getD k []).getD j 0).sum

/-- JS array element assignment `l[i] = x`: extends the array when `i` is
past the end.  The source only ever reads back indices it has assigned
contiguously, so 0-padding stands in for JS holes. -/
def jsSet (l : List ℚ) (i : ℕ) (x : ℚ) : List ℚ :=
  if i < l.length then l.set i x
  else l ++ List.replicate (i - l.length) 0 ++ [x]

/-- Partial-pivot search of `matrixInverse`: starting from row `col`,
scan rows `col+1 .. n-1` and keep the row with strictly larger `|aug[row][col]|`. -/
def pivotSearch (aug : Mat) (n col : ℕ) : ℕ × ℚ :=
  (List.range (n - (col + 1))).foldl
    (fun acc k =>
      let row := col + 1 + k
      let val := |(aug.getD row []).getD col 0|
      if acc.2 < val then (row, val) else acc)
    (col, |(aug.getD col []).getD col 0|)

/-- One column step of the Gauss-Jordan elimination in `matrixInverse`:
singular pivot (`maxVal < 1e-12`) resolves the row to an identity row
(the source writes the zeros at offsets `col + n + i`, running past the
row end for `col > 0`; `jsSet` reproduces the JS array extension);
otherwise swap, scale the pivot row, and eliminate the other rows over
the first `2n` entries. -/
def gjStep (n : ℕ) (aug : Mat) (col : ℕ) : Mat :=
  let found := pivotSearch aug n col
  let maxRow := found.1
  let maxVal := found.2
  if maxVal < 1 / 10 ^ 12 then
    let row0 := aug.getD col []
    let row1 := (List.range n).foldl (fun r i => jsSet r (col + n + i) 0) row0
    aug.set col (jsSet row1 col 1)
  else
    let swapped :=
      if maxRow ≠ col then (aug.set col (aug.getD maxRow [])).set maxRow (aug.getD col [])
      else aug
    let pivot := (swapped.getD col []).getD col 0
    let prow := swapped.getD col []
    let prow2 := (List.range (2 * n)).map (fun j => prow.getD j 0 / pivot) ++ prow.drop (2 * n)
    let swapped2 := swapped.set col prow2
    (List.range n).foldl
      (fun m row =>
        if row = col then m
        else
          let rv := m.getD row []
          let factor := rv.getD col 0
          let rv2 := (List.range (2 * n)).map
            (fun j => rv.getD j 0 - factor * ((m.getD col []).getD j 0)) ++ rv.drop (2 * n)
          m.set row rv2)
      swapped2

/-- `matrixInverse`: Gauss-Jordan elimination with partial pivoting on the
matrix augmented with the identity. -/
def matrixInverse (a : Mat) : Mat :=
  let n := a.length
  let augmented := (List.range n).map fun i =>
    a.getD i [] ++ (List.range n).map fun j => if i = j then (1 : ℚ) else 0
  let final := (List.range n).foldl (gjStep n) augmented
  (List.range n).map fun i => (final.getD i []).drop n

/-- Result of `splitData`. -/
structure SplitResult where
  train : List DatasetRecord
  test : List DatasetRecord
deriving Repr, DecidableEq

/-- Sort key used by `splitData` (`new Date(createdAt).getTime()`, null → 0). -/
def recordTime (r : DatasetRecord) : Int :=
  r.createdAt.getD 0

/-- `splitData(records, trainRatio=0.8)`: stable ascending sort by creation
time, then split at `floor(n * trainRatio)`. -/
def splitData (records : List DatasetRecord) (trainRatio : ℚ := 4 / 5) : SplitResult :=
  let sorted := records.mergeSort fun a b => decide (recordTime a ≤ recordTime b)
  let splitIndex := (⌊(sorted.length : ℚ) * trainRatio⌋).toNat
  ⟨sorted.take splitIndex, sorted.drop splitIndex⟩

/-- `classifyTier(value)`. -/
def classifyTier (value : ℚ) : String :=
  if value > 7 / 10 then "top"
  else if value < 3 / 10 then "low"
  else "mid"

/-- `predict(coefficients, intercept, featureVector)`: missing vector
entries count as 0. -/
def predict (coefficients : List ℚ) (intercept : ℚ) (featureVector : List ℚ) : ℚ :=
  intercept +
    ((List.range coefficients.length).map fun i =>
      coefficients.getD i 0 * featureVector.getD i 0).sum

/-- `trainModel(datasetId, records)`: fewer than 3 records, or an empty
train/test slice, yields the zeroed insufficient-data result; otherwise
ordinary least squares via the normal equation over the sorted feature
names, with metrics on the held-out test slice. -/
def trainModel (datasetId : String) (records : List DatasetRecord) : TrainResult :=
  if records.length < 3 then ⟨[], 0, [], 0, 0, 0, 0, 0, 0⟩
  else
    let s := splitData records
    let train := s.train
    let test := s.test
    if train.length = 0 ∨ test.length = 0 then
      ⟨[], 0, [], 0, 0, 0, 0, train.length, test.length⟩
    else
      let featureNames := ((train.headD ⟨[], 0, none⟩).normalizedFeatures.map Prod.fst).mergeSort
        fun a b => decide (a ≤ b)
      let X : Mat := train.map fun record =>
        1 :: featureNames.map fun name => recGetD record.normalizedFeatures name 0
      let y := train.map DatasetRecord.targetValue
      let Xt := matrixTranspose X
      let XtX := matrixMultiply Xt X
      let XtXinv := matrixInverse XtX
      let yCol : Mat := y.map fun v => [v]
      let XtY := matrixMultiply Xt yCol
      let beta := matrixMultiply XtXinv XtY
      let intercept := (beta.headD []).headD 0
      let coefficients := (beta.drop 1).map fun row => row.headD 0
      let testPredictions := test.map fun record =>
        predict coefficients intercept
          (featureNames.map fun name => recGetD record.normalizedFeatures name 0)
      let testActuals := test.map DatasetRecord.targetValue
      let meanActual := testActuals.sum / (testActuals.length : ℚ)
      let ssRes := ((testActuals.zip testPredictions).map fun p => (p.1 - p.2) ^ 2).sum
      let ssTot := (testActuals.map fun v => (v - meanActual) ^ 2).sum
      let maeSum := ((testActuals.zip testPredictions).map fun p => |p.1 - p.2|).sum
      let rSquared := if ssTot > 0 then 1 - ssRes / ssTot else 0
      let mae := maeSum / (testActuals.length : ℚ)
      let tierCount := ((testActuals.zip testPredictions).filter fun p =>
        classifyTier p.2 == classifyTier p.1).length
      let tierAccuracy := (tierCount : ℚ) / (testActuals.length : ℚ)
      let sortedActuals := testActuals.mergeSort fun a b => decide (a ≤ b)
      let mid := sortedActuals.length / 2
      let medianActual :=
        if sortedActuals.length % 2 = 0 then
          (sortedActuals.getD (mid - 1) 0 + sortedActuals.getD mid 0) / 2
        else sortedActuals.getD mid 0
      let directionalCount := ((testActuals.zip testPredictions).filter fun p =>
        decide (p.2 ≥ medianActual) == decide (p.1 ≥ medianActual)).length
      let directionalAccuracy := (directionalCount : ℚ) / (testActuals.length : ℚ)
      ⟨coefficients, intercept, featureNames, rSquared, mae, tierAccuracy,
        directionalAccuracy, train.length, test.length⟩

/-! ## Optimization (src/server/intelligence-core/optimization.ts) -/

/-- Interface `OptimizationSuggestion`. -/
structure OptimizationSuggestion where
  featureName : String
  currentValue : ℚ
  suggestedValue : ℚ
  delta : ℚ
  predictedGain : ℚ
  confidence : ℚ
deriving Repr, DecidableEq

/-- Interface `OptimizationResult`. -/
structure OptimizationResult where
  suggestions : List OptimizationSuggestion
  currentPrediction : ℚ
  optimizedPrediction : ℚ
  totalProjectedLift : ℚ
  liftPercent : ℚ
deriving Repr, DecidableEq

/-- `simulateDelta(featureVector, featureIndex, delta, coefficients, intercept)`:
perturbs the `featureIndex`-th key of the feature-vector object (in its own
key-enumeration order), clamps it to [0,1], and predicts over the object's
key order.  `none` models the thrown `Invalid feature index` error. -/
def simulateDelta (featureVector : List (String × ℚ)) (featureIndex : ℕ) (delta : ℚ)
    (coefficients : List ℚ) (intercept : ℚ) : Option ℚ :=
  let featureNames := featureVector.map Prod.fst
  match featureNames.get? featureIndex with
  | none => none
  | some featureName =>
    let clonedVector := featureVector.map fun p =>
      if p.1 = featureName then (p.1, max 0 (min 1 (p.2 + delta))) else p
    let featureArray := featureNames.map fun name => recGetD clonedVector name 0
    some (predict coefficients intercept featureArray)

/-- `Math.max(...coefficients.map(Math.abs))` over a fold; for the empty
list JS yields `-Infinity`, here `0` — in both cases the confidence
computed from it is `0`, the only way the source reads it. -/
def maxAbsCoefficient (coefficients : List ℚ) : ℚ :=
  (coefficients.map fun c => |c|).foldr max 0

/-- `optimizeFeatures(currentFeatures, coefficients, intercept, featureNames,
stepSize=0.05)`: per-feature ± perturbation via `simulateDelta`, keeping a
positive gain larger than the other direction; suggestions sorted by
descending gain.  `none` models a propagated `simulateDelta` exception. -/
def optimizeFeatures (currentFeatures : List (String × ℚ)) (coefficients : List ℚ)
    (intercept : ℚ) (featureNames : List String) (stepSize : ℚ := 1 / 20) :
    Option OptimizationResult :=
  let currentPrediction := predict coefficients intercept
    (featureNames.map fun name => recGetD currentFeatures name 0)
  match (List.range featureNames.length).mapM (fun i =>
    let featureName := featureNames.getD i ""
    let currentValue := recGetD currentFeatures featureName 0
    match simulateDelta currentFeatures i stepSize coefficients intercept,
          simulateDelta currentFeatures i (-stepSize) coefficients intercept with
    | some positiveDeltaPrediction, some negativeDeltaPrediction =>
      let positiveGain := positiveDeltaPrediction - currentPrediction
      let negativeGain := negativeDeltaPrediction - currentPrediction
      let chosen : ℚ × ℚ :=
        if positiveGain > negativeGain ∧ positiveGain > 0 then
          (max 0 (min 1 (currentValue + stepSize)), positiveGain)
        else if negativeGain > 0 then
          (max 0 (min 1 (currentValue - stepSize)), negativeGain)
        else (currentValue, 0)
      if chosen.2 > 0 then
        let coefficient := coefficients.getD i 0
        let maxCoefficient := maxAbsCoefficient coefficients
        let confidence :=
          if maxCoefficient ≠ 0 then min 1 (|coefficient| / maxCoefficient) else 0
        some (some (⟨featureName, currentValue, chosen.1, chosen.1 - currentValue,
          chosen.2, confidence⟩ : OptimizationSuggestion))
      else some none
    | _, _ => none) with
  | none => none
  | some opts =>
    let suggestions := (opts.filterMap id).mergeSort
      fun a b => decide (b.predictedGain ≤ a.predictedGain)
    let totalProjectedLift := (suggestions.map OptimizationSuggestion.predictedGain).sum
    let optimizedPrediction := currentPrediction + totalProjectedLift
    let liftPercent :=
      if currentPrediction ≠ 0 then totalProjectedLift / currentPrediction * 100 else 0
    some ⟨suggestions, currentPrediction, optimizedPrediction, totalProjectedLift, liftPercent⟩

/-- The per-feature simulation exactly as the specification words it: the
named feature itself (position `i` of `featureNames`) is perturbed by
`delta`, clamped to [0,1], and the model is evaluated over the
`featureNames` order. -/
def specPerturbedPrediction (currentFeatures : List (String × ℚ)) (coefficients : List ℚ)
    (intercept : ℚ) (featureNames : List String) (i : ℕ) (delta : ℚ) : ℚ :=
  predict coefficients intercept (featureNames.map fun name =>
    if name = featureNames.getD i "" then
      max 0 (min 1 (recGetD currentFeatures name 0 + delta))
    else recGetD currentFeatures name 0)

/-- The suggestion the specification describes for feature `i`: keep the
direction with the larger positive gain, confidence = coefficient
magnitude over the largest coefficient magnitude. -/
def specSuggestionAt (currentFeatures : List (String × ℚ)) (coefficients : List ℚ)
    (intercept : ℚ) (featureNames : List String) (stepSize : ℚ) (i : ℕ) :
    Option OptimizationSuggestion :=
  let name := featureNames.getD i ""
  let currentValue := recGetD currentFeatures name 0
  let base := predict coefficients intercept
    (featureNames.map fun n => recGetD currentFeatures n 0)
  let posGain := specPerturbedPrediction currentFeatures coefficients intercept featureNames i stepSize - base
  let negGain := specPerturbedPrediction currentFeatures coefficients intercept featureNames i (-stepSize) - base
  let conf := |coefficients.getD i 0| / maxAbsCoefficient coefficients
  if posGain > negGain ∧ posGain > 0 then
    some ⟨name, currentValue, max 0 (min 1 (currentValue + stepSize)),
      max 0 (min 1 (currentValue + stepSize)) - currentValue, posGain, conf⟩
  else if negGain > 0 then
    some ⟨name, currentValue, max 0 (min 1 (currentValue - stepSize)),
      max 0 (min 1 (currentValue - stepSize)) - currentValue, negGain, conf⟩
  else none

/-- The optimization result as described by the specification: suggestions
for the named features in descending-gain order, total projected lift the
sum of the suggested gains. -/
def optimizeFeaturesSpec (currentFeatures : List (String × ℚ)) (coefficients : List ℚ)
    (intercept : ℚ) (featureNames : List String) (stepSize : ℚ := 1 / 20) :
    OptimizationResult :=
  let base := predict coefficients intercept
    (featureNames.map fun n => recGetD currentFeatures n 0)
  let suggestions := ((List.range featureNames.length).filterMap
      (specSuggestionAt currentFeatures coefficients intercept featureNames stepSize)).mergeSort
    fun a b => decide (b.predictedGain ≤ a.predictedGain)
  let lift := (suggestions.map OptimizationSuggestion.predictedGain).sum
  ⟨suggestions, base, base + lift, lift, if base ≠ 0 then lift / base * 100 else 0⟩

/-! ## Exploration engine (src/unnamed/part_006, exploration) -/

/-- The `AMIStage` union type. -/
inductive AMIStage where
  | early_noise
  | search_growth
  | buyer_interest
  | media_amplification
deriving Repr, DecidableEq

/-- The four component scores of an `AMIScore`. -/
structure AMIComponents where
  culturalSpikeScore : ℚ
  searchAccelerationScore : ℚ
  marketplaceRankDeltaScore : ℚ
  mediaAmplificationScore : ℚ
deriving Repr, DecidableEq

/-- Interface `AMIScore`. -/
structure AMIScore where
  ami : ℚ
  stage : AMIStage
  confidence : ℚ
  components : AMIComponents
  layerScores : List (ℕ × ℚ)
deriving Repr, DecidableEq

/-- `layerSignals[k] ?? 0` over the layer-number-keyed record. -/
def layerGetD (m : List (ℕ × ℚ)) (k : ℕ) (d : ℚ) : ℚ :=
  ((m.find? fun p => p.1 == k).map Prod.snd).getD d

/-- `computeAMI(layerSignals)`: weighted composite of the four layer
scores clamped to [0,1], ordered stage classification, and confidence
from the number of layers with positive data. -/
def computeAMI (layerSignals : List (ℕ × ℚ)) : AMIScore :=
  let culturalSpikeScore := layerGetD layerSignals 1 0
  let searchAccelerationScore := layerGetD layerSignals 2 0
  let marketplaceRankDeltaScore := layerGetD layerSignals 3 0
  let mediaAmplificationScore := layerGetD layerSignals 4 0
  let ami := culturalSpikeScore * (2 / 10) + searchAccelerationScore * (3 / 10) +
    marketplaceRankDeltaScore * (25 / 100) + mediaAmplificationScore * (25 / 100)
  let clampedAmi := max 0 (min 1 ami)
  let stage : AMIStage :=
    if culturalSpikeScore > 6 / 10 ∧ searchAccelerationScore < 3 / 10 then .early_noise
    else if searchAccelerationScore > 5 / 10 then .search_growth
    else if marketplaceRankDeltaScore > 5 / 10 then .buyer_interest
    else if mediaAmplificationScore > 6 / 10 then .media_amplification
    else .early_noise
  let layersWithData := ((layerSignals.map Prod.snd).filter fun v => decide (v > 0)).length
  let confidence := min 1 ((layersWithData : ℚ) / 4 * (8 / 10) + 2 / 10)
  ⟨clampedAmi, stage, confidence,
    ⟨culturalSpikeScore, searchAccelerationScore, marketplaceRankDeltaScore,
      mediaAmplificationScore⟩, layerSignals⟩

/-! ## Correlation engine: Pearson correlation (src/unnamed/part_005) -/

section RealValued

open scoped Classical

/-- `computePearsonCorrelation(x, y)`: 0 for mismatched or empty inputs
and for zero variance, otherwise the sample correlation clamped to
[-1, 1].  Over `ℝ` because the source takes square roots. -/
noncomputable def computePearsonCorrelation (x y : List ℝ) : ℝ :=
  if x.length ≠ y.length ∨ x.length = 0 then 0
  else
    let n : ℝ := x.length
    let meanX := x.sum / n
    let meanY := y.sum / n
    let covariance := (List.zipWith (fun a b => (a - meanX) * (b - meanY)) x y).sum
    let varX := (x.map fun a => (a - meanX) ^ 2).sum
    let varY := (y.map fun b => (b - meanY) ^ 2).sum
    let stdX := Real.sqrt (varX / n)
    let stdY := Real.sqrt (varY / n)
    if stdX = 0 ∨ stdY = 0 then 0
    else
      let pearsonR := covariance / n / (stdX * stdY)
      max (-1) (min 1 pearsonR)

/-! ## Drift detection (src/unnamed/part_005, drift-detection) -/

/-- The slice of a prediction log consumed by `detectDrift`
(`predictedValue` and the nullable `actualValue`). -/
structure DriftLog where
  predictedValue : ℝ
  actualValue : Option ℝ

/-- The `DriftStatus` result (severity and recommendation as their string
literals; the presentational `details` message carries no further data and
is not modelled). -/
structure DriftStatus where
  driftDetected : Bool
  driftType : Option String
  severity : String
  recommendation : String
deriving Repr, DecidableEq

/-- The no-drift `DriftStatus` that `detectDrift` starts from. -/
def noDriftStatus : DriftStatus :=
  ⟨false, none, "none", "none"⟩

/-- JS `list.slice(-w)`: the last `w` elements (`slice(-0)` is the whole
list). -/
def sliceLast (l : List DriftLog) (w : ℕ) : List DriftLog :=
  if w = 0 then l else l.drop (l.length - w)

/-- `detectDrift(predictions, windowSize=10)`: over the last `windowSize`
entries, first the overestimation-ratio checks among the validated
entries (>0.8 severe/retrain, >0.6 moderate/reduce_confidence), then the
engagement-drop test on the validated actual values (last 5 against the
earlier ones, needing at least 2 of those and positive standard
deviation), each returning as soon as it fires. -/
noncomputable def detectDrift (predictions : List DriftLog) (windowSize : ℕ := 10) :
    DriftStatus :=
  if predictions = [] then noDriftStatus
  else
    let windowPredictions := sliceLast predictions windowSize
    let overestimationCount := (windowPredictions.filter fun p =>
      match p.actualValue with
      | none => false
      | some a => decide (p.predictedValue > a)).length
    let validPredictions := windowPredictions.filter fun p => p.actualValue.isSome
    if 0 < validPredictions.length ∧
        (4 / 5 : ℝ) < (overestimationCount : ℝ) / (validPredictions.length : ℝ) then
      ⟨true, some "overestimation", "severe", "retrain"⟩
    else if 0 < validPredictions.length ∧
        (3 / 5 : ℝ) < (overestimationCount : ℝ) / (validPredictions.length : ℝ) then
      ⟨true, some "overestimation", "moderate", "reduce_confidence"⟩
    else
      let actualValues := validPredictions.map fun p => p.actualValue.getD 0
      if 5 ≤ actualValues.length then
        let recentValues := actualValues.drop (actualValues.length - 5)
        let historicalValues := actualValues.take (actualValues.length - 5)
        if 2 ≤ historicalValues.length then
          let historicalMean := historicalValues.sum / (historicalValues.length : ℝ)
          let historicalVariance :=
            (historicalValues.map fun v => (v - historicalMean) ^ 2).sum /
              (historicalValues.length : ℝ)
          let historicalStdDev := Real.sqrt historicalVariance
          if 0 < historicalStdDev then
            let recentMean := recentValues.sum / (recentValues.length : ℝ)
            let deviations := (historicalMean - recentMean) / historicalStdDev
            if 2 < deviations then
              ⟨true, some "engagement_drop",
                if 3 < deviations then "severe" else "moderate", "increase_exploration"⟩
            else noDriftStatus
          else noDriftStatus
        else noDriftStatus
      else noDriftStatus

/-- The window the claim describes: the most recent `windowSize` entries
that have a validated actual value (filter first, then window). -/
def claimDriftWindow (predictions : List DriftLog) (windowSize : ℕ) : List DriftLog :=
  sliceLast (predictions.filter fun p => p.actualValue.isSome) windowSize

/-- `detectDrift` as the specification describes it, with the window
amended to the validated entries among the most recent `windowSize`
entries: overestimation fraction among those entries, then the
engagement-drop test, in strict short-circuit order. -/
noncomputable def detectDriftSpec (predictions : List DriftLog) (windowSize : ℕ := 10) :
    DriftStatus :=
  if predictions = [] then noDriftStatus
  else
    let valid := (sliceLast predictions windowSize).filter fun p => p.actualValue.isSome
    let overFraction :=
      ((valid.filter fun p => decide (p.predictedValue > p.actualValue.getD 0)).length : ℝ) /
        (valid.length : ℝ)
    if valid ≠ [] ∧ (4 / 5 : ℝ) < overFraction then
      ⟨true, some "overestimation", "severe", "retrain"⟩
    else if valid ≠ [] ∧ (3 / 5 : ℝ) < overFraction then
      ⟨true, some "overestimation", "moderate", "reduce_confidence"⟩
    else
      let actualValues := valid.map fun p => p.actualValue.getD 0
      if 5 ≤ actualValues.length then
        let recentValues := actualValues.drop (actualValues.length - 5)
        let historicalValues := actualValues.take (actualValues.length - 5)
        if 2 ≤ historicalValues.length then
          let historicalMean := historicalValues.sum / (historicalValues.length : ℝ)
          let historicalVariance :=
            (historicalValues.map fun v => (v - historicalMean) ^ 2).sum /
              (historicalValues.length : ℝ)
          let historicalStdDev := Real.sqrt historicalVariance
          if 0 < historicalStdDev then
            let recentMean := recentValues.sum / (recentValues.length : ℝ)
            let deviations := (historicalMean - recentMean) / historicalStdDev
            if 2 < deviations then
              ⟨true, some "engagement_drop",
                if 3 < deviations then "severe" else "moderate", "increase_exploration"⟩
            else noDriftStatus
          else noDriftStatus
        else noDriftStatus
      else noDriftStatus

end RealValued

/-! ## Prediction and snapshots (src/server/intelligence-core/prediction.ts) -/

/-- The payload hashed by `createPredictionSnapshot`:
`JSON.stringify({featureVector, coefficients, predictedValue, timestamp})`. -/
structure HashInput where
  featureVector : List ℚ
  coefficients : List ℚ
  predictedValue : ℚ
  timestamp : String
deriving Repr, DecidableEq

/-- A row of the `model_snapshots` table (src/shared/schema.ts,
`modelSnapshots`). -/
structure ModelSnapshotRow where
  id : String
  datasetId : String
  modelId : Option String
  featureVector : List ℚ
  coefficientsUsed : List ℚ
  predictedValue : ℚ
  predictedTier : Option String
  confidence : Option ℚ
  hashSignature : String
  uploadConfirmed : Bool
  uploadConfirmedAt : Option Int
  performanceTrackingStarted : Bool
  sourceId : Option String
  sourceType : Option String
  isLocked : Bool
  createdAt : Int
deriving Repr, DecidableEq

/-- A row of the `prediction_logs` table (src/shared/schema.ts,
`predictionLogs`). -/
structure PredictionLogRow where
  id : String
  snapshotId : Option String
  datasetId : String
  modelId : String
  predictedValue : ℚ
  predictedTier : Option String
  actualValue : Option ℚ
  actualTier : Option String
  error : Option ℚ
  absoluteError : Option ℚ
  directionallyCorrect : Option Bool
  tierCorrect : Option Bool
  validatedAt : Option Int
deriving Repr, DecidableEq

/-- Modelled from the spec: persistence is the injected read/write
collection abstraction over the entities of the data model (the concrete
database engine is outside the core).  A store holds the snapshot and
prediction-log collections; an insert appends a row carrying the
store-assigned `id`/`createdAt` and returns it, a select-by-id reads the
first matching row, an update-by-id rewrites the matching rows in place. -/
structure IntelligenceStore where
  snapshots : List ModelSnapshotRow
  predictionLogs : List PredictionLogRow
deriving Repr, DecidableEq

/-- `createPredictionSnapshot(...)`: hashes
`{featureVector, coefficients, predictedValue, timestamp}` with the
digest function `h` (SHA-256 of the JSON serialization, abstracted as an
arbitrary deterministic function) and persists the locked snapshot row.
`newId` and `dbNow` are the store-assigned id and `created_at`;
`timestamp` is `new Date().toISOString()` read at creation. -/
def createPredictionSnapshot (h : HashInput → String) (store : IntelligenceStore)
    (newId : String) (dbNow : Int) (timestamp : String)
    (datasetId : String) (modelId : String)
    (featureVector : List ℚ) (coefficients : List ℚ)
    (predictedValue : ℚ) (predictedTier : String) (confidence : ℚ)
    (sourceId : Option String := none) (sourceType : Option String := none) :
    ModelSnapshotRow × IntelligenceStore :=
  let hashSignature := h ⟨featureVector, coefficients, predictedValue, timestamp⟩
  let snapshot : ModelSnapshotRow :=
    { id := newId
      datasetId := datasetId
      modelId := some modelId
      featureVector := featureVector
      coefficientsUsed := coefficients
      predictedValue := predictedValue
      predictedTier := some predictedTier
      confidence := some confidence
      hashSignature := hashSignature
      uploadConfirmed := false
      uploadConfirmedAt := none
      performanceTrackingStarted := false
      sourceId := if sourceId = some "" then none else sourceId
      sourceType := if sourceType = some "" then none else sourceType
      isLocked := true
      createdAt := dbNow }
  (snapshot, { store with snapshots := store.snapshots ++ [snapshot] })

/-- `confirmUpload(snapshotId)`: sets the upload-confirmation and
tracking flags on the matching snapshot and returns it. -/
def confirmUpload (store : IntelligenceStore) (snapshotId : String) (dbNow : Int) :
    Option ModelSnapshotRow × IntelligenceStore :=
  let snapshots := store.snapshots.map fun r =>
    if r.id = snapshotId then
      { r with
        uploadConfirmed := true
        uploadConfirmedAt := some dbNow
        performanceTrackingStarted := true }
    else r
  ((snapshots.filter fun r => r.id == snapshotId).head?,
    { store with snapshots := snapshots })

/-- `validatePrediction(snapshotId, actualValue)`: `Snapshot not found`
when no snapshot matches, otherwise computes the error and correctness
fields and appends exactly one prediction log.  `newLogId`/`dbNow` are
the store-assigned id and validation time. -/
def validatePrediction (store : IntelligenceStore) (newLogId : String) (dbNow : Int)
    (snapshotId : String) (actualValue : ℚ) :
    Except String (PredictionLogRow × IntelligenceStore) :=
  match store.snapshots.find? fun r => r.id == snapshotId with
  | none => .error "Snapshot not found"
  | some snapshot =>
    let predicted := snapshot.predictedValue
    let error := predicted - actualValue
    let absoluteError := |error|
    let directionallyCorrect :=
      decide ((predicted ≥ 1 / 2 ∧ actualValue ≥ 1 / 2) ∨
        (predicted < 1 / 2 ∧ actualValue < 1 / 2))
    let actualTier := classifyTier actualValue
    let tierUsed :=
      match snapshot.predictedTier with
      | some t => if t = "" then classifyTier predicted else t
      | none => classifyTier predicted
    let tierCorrect := decide (tierUsed = actualTier)
    let log : PredictionLogRow :=
      { id := newLogId
        snapshotId := some snapshotId
        datasetId := snapshot.datasetId
        modelId := snapshot.modelId.getD ""
        predictedValue := predicted
        predictedTier := snapshot.predictedTier
        actualValue := some actualValue
        actualTier := some actualTier
        error := some error
        absoluteError := some absoluteError
        directionallyCorrect := some directionallyCorrect
        tierCorrect := some tierCorrect
        validatedAt := some dbNow }
    .ok (log, { store with predictionLogs := store.predictionLogs ++ [log] })

/-! ## Claim theorems -/

/-- C7: `computeAMI` returns the weighted sum 0.2·cultural + 0.3·search +
0.25·marketplace + 0.25·media (absent layer = 0) clamped to [0,1]; the
stage follows the ordered rules (cultural>0.6 ∧ search<0.3 → early_noise,
else search>0.5 → search_growth, else marketplace>0.5 → buyer_interest,
else media>0.6 → media_amplification, else early_noise); confidence is
min(1, (layersWithNonZeroData/4)·0.8 + 0.2); and
`computeAMI({1:0.8, 2:0.1, 3:0, 4:0})` has stage early_noise. -/
theorem computeAMI_contract :
    (∀ layerSignals : List (ℕ × ℚ),
      (computeAMI layerSignals).ami =
        max 0 (min 1 ((2 / 10) * layerGetD layerSignals 1 0 +
          (3 / 10) * layerGetD layerSignals 2 0 +
          (25 / 100) * layerGetD layerSignals 3 0 +
          (25 / 100) * layerGetD layerSignals 4 0)) ∧
      (computeAMI layerSignals).stage =
        (if layerGetD layerSignals 1 0 > 6 / 10 ∧ layerGetD layerSignals 2 0 < 3 / 10 then
          AMIStage.early_noise
        else if layerGetD layerSignals 2 0 > 5 / 10 then AMIStage.search_growth
        else if layerGetD layerSignals 3 0 > 5 / 10 then AMIStage.buyer_interest
        else if layerGetD layerSignals 4 0 > 6 / 10 then AMIStage.media_amplification
        else AMIStage.early_noise) ∧
      (computeAMI layerSignals).confidence =
        min 1 (((((layerSignals.map Prod.snd).filter fun v => decide (0 < v)).length : ℚ)
          / 4) * (8 / 10) + 2 / 10)) ∧
    (computeAMI [(1, 8 / 10), (2, 1 / 10), (3, 0), (4, 0)]).stage = AMIStage.early_noise := by
  refine ⟨fun layerSignals => ⟨?_, rfl, rfl⟩, ?_⟩
  · simp only [computeAMI]
    congr 2
    ring
  · norm_num [computeAMI, layerGetD]

/-- C3 counterexample: `normalizeFeatures` returns 0 for a feature whose
stats have max ≠ min (a value at the min clamps to 0), so "equals 0
exactly when max === min" fails in the only-if direction. -/
theorem normalizeFeatures_zero_iff_counterexample :
    normalizeFeatures [("a", 2)] [("a", ⟨2, 3, 5 / 2, 1 / 2⟩)] = [("a", 0)] ∧
    (⟨2, 3, 5 / 2, 1 / 2⟩ : FeatureStats).max ≠ (⟨2, 3, 5 / 2, 1 / 2⟩ : FeatureStats).min := by
  constructor
  · norm_num [normalizeFeatures, statsGet, List.find?]
  · norm_num

/-- C3 (amended): every value `normalizeFeatures` returns lies in [0,1];
an entry whose stats are absent or satisfy max = min normalizes to 0; and
when min < max the normalized value is 0 exactly when the raw value is at
most the min (the clamp floor), not only when max = min. -/
theorem normalizeFeatures_range_and_zero (features : List (String × ℚ))
    (stats : List (String × FeatureStats)) (k : String) (v : ℚ) (s : FeatureStats) :
    (∀ p ∈ normalizeFeatures features stats, 0 ≤ p.2 ∧ p.2 ≤ 1) ∧
    (statsGet stats k = none → normalizeFeatures [(k, v)] stats = [(k, 0)]) ∧
    (statsGet stats k = some s → s.max = s.min →
      normalizeFeatures [(k, v)] stats = [(k, 0)]) ∧
    (statsGet stats k = some s → s.min < s.max →
      (((normalizeFeatures [(k, v)] stats).getD 0 ("", 0)).2 = 0 ↔ v ≤ s.min)) := by
  refine ⟨?_, ?_, ?_, ?_⟩
  · intro p hp
    simp only [normalizeFeatures, List.mem_map] at hp
    obtain ⟨q, -, hq⟩ := hp
    subst hq
    rcases h : statsGet stats q.1 with _ | st
    · simp
    · by_cases he : st.max = st.min
      · simp [he]
      · simp [he]
  · intro h
    simp [normalizeFeatures, h]
  · intro h he
    simp [normalizeFeatures, h, he]
  · intro h hlt
    have hne : ¬ s.max = s.min := by
      intro he
      rw [he] at hlt
      exact lt_irrefl _ hlt
    have hpos : 0 < s.max - s.min := by linarith
    simp only [normalizeFeatures, List.map_cons, List.map_nil, h, hne, if_false,
      List.getD_cons_zero]
    constructor
    · intro h0
      have h1 : min 1 ((v - s.min) / (s.max - s.min)) ≤ 0 := by
        by_contra hc
        push_neg at hc
        rw [max_eq_right (le_of_lt hc)] at h0
        exact absurd h0 (ne_of_gt hc)
      have h2 : (v - s.min) / (s.max - s.min) ≤ 0 := by
        rcases min_le_iff.mp h1 with h' | h'
        · norm_num at h'
        · exact h'
      have h3 : v - s.min ≤ 0 := by
        by_contra hc
        push_neg at hc
        exact absurd h2 (not_le.mpr (div_pos hc hpos))
      linarith
    · intro hv
      have h2 : (v - s.min) / (s.max - s.min) ≤ 0 :=
        div_nonpos_iff.mpr (Or.inr ⟨by linarith, le_of_lt hpos⟩)
      exact max_eq_left (min_le_of_right_le h2)

/-- Witness for C3 (amended) at concrete features and stats. -/
theorem normalizeFeatures_range_and_zero_witness :
    (∀ p ∈ normalizeFeatures [("a", 3), ("b", -1)]
      [("a", ⟨0, 4, 2, 1⟩), ("b", ⟨0, 4, 2, 1⟩)], 0 ≤ p.2 ∧ p.2 ≤ 1) ∧
    normalizeFeatures [("c", 9)] [("a", ⟨0, 4, 2, 1⟩), ("b", ⟨0, 4, 2, 1⟩)] = [("c", 0)] ∧
    normalizeFeatures [("a", 9)] [("a", ⟨5, 5, 5, 0⟩)] = [("a", 0)] ∧
    (((normalizeFeatures [("a", -1)] [("a", ⟨0, 4, 2, 1⟩)]).getD 0 ("", 0)).2 = 0 ↔
      (-1 : ℚ) ≤ (⟨0, 4, 2, 1⟩ : FeatureStats).min) :=
  ⟨(normalizeFeatures_range_and_zero [("a", 3), ("b", -1)]
      [("a", ⟨0, 4, 2, 1⟩), ("b", ⟨0, 4, 2, 1⟩)] "x" 0 ⟨0, 0, 0, 0⟩).1,
    (normalizeFeatures_range_and_zero [] [("a", ⟨0, 4, 2, 1⟩), ("b", ⟨0, 4, 2, 1⟩)]
      "c" 9 ⟨0, 0, 0, 0⟩).2.1 (by simp [statsGet]),
    (normalizeFeatures_range_and_zero [] [("a", ⟨5, 5, 5, 0⟩)] "a" 9 ⟨5, 5, 5, 0⟩).2.2.1
      (by simp [statsGet]) rfl,
    (normalizeFeatures_range_and_zero [] [("a", ⟨0, 4, 2, 1⟩)] "a" (-1)
      ⟨0, 4, 2, 1⟩).2.2.2 (by simp [statsGet]) (by norm_num)⟩

/-- C1: the persisted snapshot's hashSignature is the digest of
{featureVector, coefficients, predictedValue, timestamp} for the creation
timestamp; the snapshot stores exactly those fields (so recomputing the
digest from the stored fields and the creation timestamp reproduces
hashSignature); it is locked; and neither `confirmUpload` (the only
allowed later mutation) nor `validatePrediction` alters featureVector,
coefficientsUsed, predictedValue or hashSignature of any stored
snapshot.  Stated for every digest function `h`, hence for SHA-256 of
the JSON serialization in particular. -/
theorem createPredictionSnapshot_locked_hash (h : HashInput → String)
    (store : IntelligenceStore) (newId : String) (dbNow : Int) (timestamp : String)
    (datasetId modelId : String) (featureVector coefficients : List ℚ)
    (predictedValue : ℚ) (predictedTier : String) (confidence : ℚ)
    (sourceId sourceType : Option String) (sid logId : String) (t : Int) (actual : ℚ) :
    ((createPredictionSnapshot h store newId dbNow timestamp datasetId modelId
        featureVector coefficients predictedValue predictedTier confidence
        sourceId sourceType).1.hashSignature =
      h ⟨featureVector, coefficients, predictedValue, timestamp⟩) ∧
    ((createPredictionSnapshot h store newId dbNow timestamp datasetId modelId
        featureVector coefficients predictedValue predictedTier confidence
        sourceId sourceType).1.featureVector = featureVector) ∧
    ((createPredictionSnapshot h store newId dbNow timestamp datasetId modelId
        featureVector coefficients predictedValue predictedTier confidence
        sourceId sourceType).1.coefficientsUsed = coefficients) ∧
    ((createPredictionSnapshot h store newId dbNow timestamp datasetId modelId
        featureVector coefficients predictedValue predictedTier confidence
        sourceId sourceType).1.predictedValue = predictedValue) ∧
    ((createPredictionSnapshot h store newId dbNow timestamp datasetId modelId
        featureVector coefficients predictedValue predictedTier confidence
        sourceId sourceType).1.isLocked = true) ∧
    (h ⟨(createPredictionSnapshot h store newId dbNow timestamp datasetId modelId
          featureVector coefficients predictedValue predictedTier confidence
          sourceId sourceType).1.featureVector,
        (createPredictionSnapshot h store newId dbNow timestamp datasetId modelId
          featureVector coefficients predictedValue predictedTier confidence
          sourceId sourceType).1.coefficientsUsed,
        (createPredictionSnapshot h store newId dbNow timestamp datasetId modelId
          featureVector coefficients predictedValue predictedTier confidence
          sourceId sourceType).1.predictedValue, timestamp⟩ =
      (createPredictionSnapshot h store newId dbNow timestamp datasetId modelId
        featureVector coefficients predictedValue predictedTier confidence
        sourceId sourceType).1.hashSignature) ∧
    ((createPredictionSnapshot h store newId dbNow timestamp datasetId modelId
        featureVector coefficients predictedValue predictedTier confidence
        sourceId sourceType).2.snapshots =
      store.snapshots ++ [(createPredictionSnapshot h store newId dbNow timestamp
        datasetId modelId featureVector coefficients predictedValue predictedTier
        confidence sourceId sourceType).1]) ∧
    (((confirmUpload store sid t).2.snapshots.map fun r =>
        (r.featureVector, r.coefficientsUsed, r.predictedValue, r.hashSignature)) =
      store.snapshots.map fun r =>
        (r.featureVector, r.coefficientsUsed, r.predictedValue, r.hashSignature)) ∧
    ((validatePrediction store logId t sid actual).map fun out => out.2.snapshots) =
      (validatePrediction store logId t sid actual).map fun _ => store.snapshots := by
  refine ⟨rfl, rfl, rfl, rfl, rfl, rfl, rfl, ?_, ?_⟩
  · show (store.snapshots.map _).map _ = _
    rw [List.map_map]
    apply List.map_congr_left
    intro r _hr
    by_cases hr : r.id = sid <;> simp [hr]
  · unfold validatePrediction
    cases hf : store.snapshots.find? fun r => r.id == sid <;> rfl

/-- C5: `validatePrediction` fails with the explicit not-found error when
no snapshot has the given id; otherwise it appends exactly one
PredictionLog whose error is predicted − actual, whose
directionallyCorrect holds iff predicted and actual are on the same side
of 0.5, and whose tierCorrect holds iff the stored predictedTier equals
`classifyTier(actualValue)` (for the snapshots the core creates, whose
predictedTier is a stored non-empty string). -/
theorem validatePrediction_contract (store : IntelligenceStore)
    (logId : String) (t : Int) (sid : String) (actual : ℚ) :
    ((store.snapshots.find? fun r => r.id == sid) = none →
      validatePrediction store logId t sid actual = .error "Snapshot not found") ∧
    (∀ snapshot, (store.snapshots.find? fun r => r.id == sid) = some snapshot →
      (((validatePrediction store logId t sid actual).map fun out => out.1.error) =
        .ok (some (snapshot.predictedValue - actual))) ∧
      (((validatePrediction store logId t sid actual).map fun out =>
          out.1.directionallyCorrect) =
        .ok (some (decide ((1 / 2 ≤ snapshot.predictedValue) ↔ (1 / 2 ≤ actual))))) ∧
      (∀ tier, snapshot.predictedTier = some tier → tier ≠ "" →
        ((validatePrediction store logId t sid actual).map fun out => out.1.tierCorrect) =
          .ok (some (decide (tier = classifyTier actual)))) ∧
      (((validatePrediction store logId t sid actual).map fun out =>
          out.2.predictionLogs) =
        (validatePrediction store logId t sid actual).map fun out =>
          store.predictionLogs ++ [out.1])) := by
  constructor
  · intro hnone
    unfold validatePrediction
    rw [hnone]
  · intro snapshot hfind
    have hdir : ((snapshot.predictedValue ≥ 1 / 2 ∧ actual ≥ 1 / 2) ∨
        (snapshot.predictedValue < 1 / 2 ∧ actual < 1 / 2)) ↔
        ((1 / 2 ≤ snapshot.predictedValue) ↔ (1 / 2 ≤ actual)) := by
      constructor
      · rintro (⟨h1, h2⟩ | ⟨h1, h2⟩)
        · exact iff_of_true h1 h2
        · exact iff_of_false (not_le.mpr h1) (not_le.mpr h2)
      · intro hiff
        by_cases hp : (1 / 2 : ℚ) ≤ snapshot.predictedValue
        · exact Or.inl ⟨hp, hiff.mp hp⟩
        · exact Or.inr ⟨not_le.mp hp, not_le.mp fun hc => hp (hiff.mpr hc)⟩
    refine ⟨?_, ?_, ?_, ?_⟩
    · simp only [validatePrediction, hfind, Except.map]
    · simp only [validatePrediction, hfind, Except.map]
      rw [decide_eq_decide.mpr hdir]
    · intro tier htier hne
      simp only [validatePrediction, hfind, Except.map, htier]
      rw [if_neg hne]
    · simp only [validatePrediction, hfind, Except.map]

/-- A concrete stored snapshot used by the C5 witness. -/
def snapshotW : ModelSnapshotRow :=
  { id := "s1"
    datasetId := "d1"
    modelId := some "m1"
    featureVector := [1, 0]
    coefficientsUsed := [2, 3]
    predictedValue := 1
    predictedTier := some "top"
    confidence := some 1
    hashSignature := "sig"
    uploadConfirmed := false
    uploadConfirmedAt := none
    performanceTrackingStarted := false
    sourceId := none
    sourceType := none
    isLocked := true
    createdAt := 0 }

/-- Witness for C5: a missing id fails with the not-found error, and
validating a stored snapshot yields the contractual error and tier
fields. -/
theorem validatePrediction_contract_witness :
    validatePrediction ⟨[], []⟩ "l0" 0 "s1" 0 = .error "Snapshot not found" ∧
    ((validatePrediction ⟨[snapshotW], []⟩ "l1" 7 "s1" 0).map fun out => out.1.error) =
      .ok (some (snapshotW.predictedValue - 0)) ∧
    ((validatePrediction ⟨[snapshotW], []⟩ "l1" 7 "s1" 0).map fun out => out.1.tierCorrect) =
      .ok (some (decide ("top" = classifyTier (0 : ℚ)))) :=
  ⟨(validatePrediction_contract ⟨[], []⟩ "l0" 0 "s1" 0).1 rfl,
    ((validatePrediction_contract ⟨[snapshotW], []⟩ "l1" 7 "s1" 0).2 snapshotW rfl).1,
    ((validatePrediction_contract ⟨[snapshotW], []⟩ "l1" 7 "s1" 0).2 snapshotW rfl).2.2.1
      "top" rfl (by decide)⟩

/-- C2: with fewer than 3 records `trainModel` returns the fully zeroed
result, and whenever the train or test slice after splitting is empty it
returns the empty/zero result (empty coefficients and featureNames,
intercept 0, all metrics 0) — in both cases an ordinary return value, not
an error (the function is total). -/
theorem trainModel_insufficient_data (datasetId : String) (records : List DatasetRecord) :
    (records.length < 3 →
      trainModel datasetId records = ⟨[], 0, [], 0, 0, 0, 0, 0, 0⟩) ∧
    ((splitData records).train = [] ∨ (splitData records).test = [] →
      (trainModel datasetId records).coefficients = [] ∧
      (trainModel datasetId records).featureNames = [] ∧
      (trainModel datasetId records).intercept = 0 ∧
      (trainModel datasetId records).rSquared = 0 ∧
      (trainModel datasetId records).mae = 0 ∧
      (trainModel datasetId records).tierAccuracy = 0 ∧
      (trainModel datasetId records).directionalAccuracy = 0) := by
  constructor
  · intro h
    simp only [trainModel]
    rw [if_pos h]
  · intro h
    by_cases h3 : records.length < 3
    · have heq : trainModel datasetId records = ⟨[], 0, [], 0, 0, 0, 0, 0, 0⟩ := by
        simp only [trainModel]
        rw [if_pos h3]
      rw [heq]
      exact ⟨rfl, rfl, rfl, rfl, rfl, rfl, rfl⟩
    · have hc : (splitData records).train.length = 0 ∨ (splitData records).test.length = 0 :=
        h.imp (fun he => by rw [he]; rfl) (fun he => by rw [he]; rfl)
      have heq : trainModel datasetId records =
          ⟨[], 0, [], 0, 0, 0, 0, (splitData records).train.length,
            (splitData records).test.length⟩ := by
        simp only [trainModel]
        rw [if_neg h3, if_pos hc]
      rw [heq]
      exact ⟨rfl, rfl, rfl, rfl, rfl, rfl, rfl⟩

/-- Witness for C2: two records are too few, and a single record yields an
empty train slice and the zeroed fields. -/
theorem trainModel_insufficient_data_witness :
    ([(⟨[("f", 1)], 1, some 0⟩ : DatasetRecord), ⟨[("f", 0)], 0, some 1⟩].length < 3 ∧
      trainModel "d" [(⟨[("f", 1)], 1, some 0⟩ : DatasetRecord), ⟨[("f", 0)], 0, some 1⟩] =
        ⟨[], 0, [], 0, 0, 0, 0, 0, 0⟩) ∧
    ((splitData [(⟨[("f", 1)], 1, some 0⟩ : DatasetRecord)]).train = [] ∧
      (trainModel "d" [(⟨[("f", 1)], 1, some 0⟩ : DatasetRecord)]).coefficients = [] ∧
      (trainModel "d" [(⟨[("f", 1)], 1, some 0⟩ : DatasetRecord)]).rSquared = 0) := by
  have htr : (splitData [(⟨[("f", 1)], 1, some 0⟩ : DatasetRecord)]).train = [] := by
    norm_num [splitData]
  refine ⟨⟨by decide, (trainModel_insufficient_data "d" _).1 (by decide)⟩, htr, ?_, ?_⟩
  · exact ((trainModel_insufficient_data "d" _).2 (Or.inl htr)).1
  · exact ((trainModel_insufficient_data "d" _).2 (Or.inl htr)).2.2.2.1

/-- C10: with at least 3 records the default 0.8 split leaves both slices
non-empty (1 ≤ floor(0.8·n) < n), so the second zeroed-result fallback of
`trainModel` is unreachable, and `trainModel` returns the zeroed
insufficient-data result exactly when fewer than 3 records are supplied. -/
theorem trainModel_zero_iff (datasetId : String) (records : List DatasetRecord) :
    (3 ≤ records.length →
      (splitData records).train ≠ [] ∧ (splitData records).test ≠ []) ∧
    (trainModel datasetId records = ⟨[], 0, [], 0, 0, 0, 0, 0, 0⟩ ↔
      records.length < 3) := by
  have hlens : (splitData records).train.length =
      min (⌊(records.length : ℚ) * (4 / 5)⌋).toNat records.length ∧
      (splitData records).test.length =
        records.length - (⌊(records.length : ℚ) * (4 / 5)⌋).toNat := by
    constructor <;> simp [splitData]
  have hbounds : 3 ≤ records.length →
      1 ≤ (⌊(records.length : ℚ) * (4 / 5)⌋).toNat ∧
      (⌊(records.length : ℚ) * (4 / 5)⌋).toNat < records.length := by
    intro hge
    have hn : (3 : ℚ) ≤ (records.length : ℚ) := by exact_mod_cast hge
    have h1 : (1 : ℤ) ≤ ⌊(records.length : ℚ) * (4 / 5)⌋ := by
      rw [Int.le_floor]
      push_cast
      linarith
    have h2 : ⌊(records.length : ℚ) * (4 / 5)⌋ < (records.length : ℤ) := by
      rw [Int.floor_lt]
      push_cast
      linarith
    omega
  have hmain : 3 ≤ records.length →
      (splitData records).train ≠ [] ∧ (splitData records).test ≠ [] := by
    intro hge
    obtain ⟨hb1, hb2⟩ := hbounds hge
    constructor
    · rw [← List.length_pos, hlens.1]
      omega
    · rw [← List.length_pos, hlens.2]
      omega
  refine ⟨hmain, ?_, fun h => (trainModel_insufficient_data datasetId records).1 h⟩
  · intro heq
    by_contra hlt
    push_neg at hlt
    obtain ⟨hb1, hb2⟩ := hbounds hlt
    have h3 : ¬ records.length < 3 := not_lt.mpr hlt
    have hc : ¬ ((splitData records).train.length = 0 ∨
        (splitData records).test.length = 0) := by
      rw [hlens.1, hlens.2]
      omega
    have hts : (trainModel datasetId records).trainSampleCount =
        (splitData records).train.length := by
      simp only [trainModel]
      rw [if_neg h3, if_neg hc]
    rw [heq] at hts
    simp only at hts
    rw [hlens.1] at hts
    omega

/-- Witness for C10: three records split into non-empty slices; two
records give the zeroed result. -/
theorem trainModel_zero_iff_witness :
    ((splitData [(⟨[("f", 1)], 1, some 0⟩ : DatasetRecord), ⟨[("f", 0)], 0, some 1⟩,
        ⟨[("f", 1)], 1, some 2⟩]).train ≠ [] ∧
      (splitData [(⟨[("f", 1)], 1, some 0⟩ : DatasetRecord), ⟨[("f", 0)], 0, some 1⟩,
        ⟨[("f", 1)], 1, some 2⟩]).test ≠ []) ∧
    trainModel "d" [(⟨[("f", 1)], 1, some 0⟩ : DatasetRecord), ⟨[("f", 0)], 0, some 1⟩] =
      ⟨[], 0, [], 0, 0, 0, 0, 0, 0⟩ :=
  ⟨(trainModel_zero_iff "d" _).1 (by decide),
    (trainModel_zero_iff "d" _).2.mpr (by decide)⟩

/-- C9: `computePearsonCorrelation` returns 0 for mismatched-length or
empty inputs and whenever either series is constant (zero variance on
the x side or on the y side), always lies in [-1, 1], and takes the
exact values 1 on ([1,2,3],[2,4,6]) and -1 on ([1,2,3],[3,2,1]). -/
theorem computePearsonCorrelation_contract :
    (∀ x y : List ℝ, x.length ≠ y.length ∨ x.length = 0 →
      computePearsonCorrelation x y = 0) ∧
    (∀ (n : ℕ) (c : ℝ) (y : List ℝ),
      computePearsonCorrelation (List.replicate n c) y = 0) ∧
    (∀ (n : ℕ) (c : ℝ) (x : List ℝ),
      computePearsonCorrelation x (List.replicate n c) = 0) ∧
    (∀ x y : List ℝ,
      -1 ≤ computePearsonCorrelation x y ∧ computePearsonCorrelation x y ≤ 1) ∧
    computePearsonCorrelation [1, 2, 3] [2, 4, 6] = 1 ∧
    computePearsonCorrelation [1, 2, 3] [3, 2, 1] = -1 := by
  refine ⟨?_, ?_, ?_, ?_, ?_, ?_⟩
  · intro x y h
    simp only [computePearsonCorrelation]
    rw [if_pos h]
  · intro n c y
    simp only [computePearsonCorrelation]
    by_cases hcond : (List.replicate n c).length ≠ y.length ∨ (List.replicate n c).length = 0
    · rw [if_pos hcond]
    · rw [if_neg hcond]
      push_neg at hcond
      obtain ⟨hlen, hn0⟩ := hcond
      have hvar : ((List.replicate n c).map fun a =>
          (a - (List.replicate n c).sum / ((List.replicate n c).length : ℝ)) ^ 2).sum = 0 := by
        have hn : ((List.replicate n c).length : ℝ) ≠ 0 := by exact_mod_cast hn0
        have hmean : (List.replicate n c).sum / ((List.replicate n c).length : ℝ) = c := by
          rw [List.sum_replicate, nsmul_eq_mul]
          rw [List.length_replicate] at hn ⊢
          field_simp
        rw [hmean]
        simp [List.map_replicate]
      rw [if_pos (Or.inl (by rw [hvar, zero_div, Real.sqrt_zero]))]
  · intro n c x
    simp only [computePearsonCorrelation]
    by_cases hcond : x.length ≠ (List.replicate n c).length ∨ x.length = 0
    · rw [if_pos hcond]
    · rw [if_neg hcond]
      push_neg at hcond
      obtain ⟨hlen, hn0⟩ := hcond
      have hxn : (x.length : ℝ) = (n : ℝ) := by
        rw [hlen, List.length_replicate]
      have hvar : ((List.replicate n c).map fun b =>
          (b - (List.replicate n c).sum / (x.length : ℝ)) ^ 2).sum = 0 := by
        have hn : (x.length : ℝ) ≠ 0 := by exact_mod_cast hn0
        have hne : (n : ℝ) ≠ 0 := hxn ▸ hn
        have hmean : (List.replicate n c).sum / (x.length : ℝ) = c := by
          rw [List.sum_replicate, nsmul_eq_mul, hxn]
          field_simp
        rw [hmean]
        simp [List.map_replicate]
      rw [if_pos (Or.inr (by rw [hvar, zero_div, Real.sqrt_zero]))]
  · intro x y
    refine ⟨?_, ?_⟩ <;>
    · simp only [computePearsonCorrelation]
      split
      · norm_num
      · split
        · norm_num
        · first
          | exact le_max_left _ _
          | exact max_le (by norm_num) (min_le_left _ _)
  · simp only [computePearsonCorrelation]
    rw [if_neg (by norm_num)]
    norm_num [List.zipWith]
    have h38 : Real.sqrt 2 / Real.sqrt 3 * (Real.sqrt 8 / Real.sqrt 3) = 4 / 3 := by
      rw [div_mul_div_comm, ← Real.sqrt_mul (by norm_num), Real.mul_self_sqrt (by norm_num)]
      rw [show (2 * 8 : ℝ) = 4 ^ 2 by norm_num, Real.sqrt_sq (by norm_num)]
    rw [h38]
    norm_num
  · simp only [computePearsonCorrelation]
    rw [if_neg (by norm_num)]
    norm_num [List.zipWith]
    have h22 : Real.sqrt 2 / Real.sqrt 3 * (Real.sqrt 2 / Real.sqrt 3) = 2 / 3 := by
      rw [div_mul_div_comm, Real.mul_self_sqrt (by norm_num), Real.mul_self_sqrt (by norm_num)]
    rw [h22]
    norm_num

/-- Witness for C9 at a concrete length mismatch. -/
theorem computePearsonCorrelation_contract_witness :
    computePearsonCorrelation [1] [1, 2] = 0 :=
  computePearsonCorrelation_contract.1 [1] [1, 2] (by norm_num)

/-- C4 counterexample: `detectDrift` windows first and filters second, so
with ten unvalidated entries after one validated overestimating entry it
reports no drift, while the claim's window — the most recent 10 entries
that have a validated actual value — contains the one validated entry
with overestimation fraction 1 > 0.8 and so would demand
"severe"/"retrain". -/
theorem detectDrift_window_counterexample :
    (detectDrift (⟨1, some 0⟩ :: List.replicate 10 ⟨0, none⟩) 10).severity = "none" ∧
    (detectDrift (⟨1, some 0⟩ :: List.replicate 10 ⟨0, none⟩) 10).recommendation = "none" ∧
    claimDriftWindow (⟨1, some 0⟩ :: List.replicate 10 ⟨0, none⟩) 10 = [⟨1, some 0⟩] ∧
    (4 / 5 : ℝ) <
      (((claimDriftWindow (⟨1, some 0⟩ :: List.replicate 10 ⟨0, none⟩) 10).filter fun p =>
          decide (p.predictedValue > p.actualValue.getD 0)).length : ℝ) /
        ((claimDriftWindow (⟨1, some 0⟩ :: List.replicate 10 ⟨0, none⟩) 10).length : ℝ) := by
  refine ⟨?_, ?_, ?_, ?_⟩
  · norm_num [detectDrift, sliceLast, List.filter_cons, noDriftStatus, List.replicate]
  · norm_num [detectDrift, sliceLast, List.filter_cons, noDriftStatus, List.replicate]
  · norm_num [claimDriftWindow, sliceLast, List.filter_cons, List.replicate]
  · norm_num [claimDriftWindow, sliceLast, List.filter_cons, List.replicate]

/-- C4 (amended): `detectDrift` behaves exactly as the claim describes —
strict short-circuit priority of the 0.8-severe/retrain and
0.6-moderate/reduce_confidence overestimation checks, then the
engagement-drop test (last 5 actuals against the earlier ones, needing at
least 2 earlier values and positive standard deviation, severe above 3
deviations, moderate above 2, recommendation increase_exploration) — with
the window amended to the validated entries among the most recent
windowSize entries; and on 10 validated predictions of which 9 have
predicted > actual it returns "severe"/"retrain". -/
theorem detectDrift_amended_contract :
    (∀ (l : List DriftLog) (w : ℕ), detectDrift l w = detectDriftSpec l w) ∧
    detectDrift [⟨1, some 0⟩, ⟨1, some 0⟩, ⟨1, some 0⟩, ⟨1, some 0⟩, ⟨1, some 0⟩,
      ⟨1, some 0⟩, ⟨1, some 0⟩, ⟨1, some 0⟩, ⟨1, some 0⟩, ⟨0, some 1⟩] 10 =
      ⟨true, some "overestimation", "severe", "retrain"⟩ := by
  constructor
  · intro l w
    classical
    by_cases hnil : l = []
    · simp [detectDrift, detectDriftSpec, hnil]
    · simp only [detectDrift, detectDriftSpec, if_neg hnil]
      have hcount : ((sliceLast l w).filter fun p =>
          match p.actualValue with
          | none => false
          | some a => decide (p.predictedValue > a)).length =
          (((sliceLast l w).filter fun p => p.actualValue.isSome).filter fun p =>
            decide (p.predictedValue > p.actualValue.getD 0)).length := by
        rw [List.filter_filter]
        congr 1
        apply List.filter_congr
        intro p _
        rcases hp : p.actualValue with _ | a <;> simp [hp]
      rw [hcount]
      exact if_congr (and_congr_left' List.length_pos) rfl
        (if_congr (and_congr_left' List.length_pos) rfl rfl)
  · norm_num [detectDrift, sliceLast, List.filter_cons]
    all_goals
      intro h
      exact absurd h (List.cons_ne_nil _ _)

/-! ### Helper lemmas for the optimization claims -/

theorem mapM_eq_map_of_some {α β : Type} (f : α → Option β) (g : α → β) :
    ∀ l : List α, (∀ a ∈ l, f a = some (g a)) → l.mapM f = some (l.map g) := by
  intro l
  induction l with
  | nil => intro _; rfl
  | cons a t ih =>
    intro h
    rw [List.mapM_cons, h a (List.mem_cons_self a t), ih fun x hx => h x (List.mem_cons_of_mem a hx)]
    rfl

theorem foldr_max_nonneg (xs : List ℚ) : 0 ≤ xs.foldr max 0 := by
  induction xs with
  | nil => exact le_refl 0
  | cons a t ih => exact le_trans ih (le_max_right _ _)

theorem le_foldr_max (xs : List ℚ) (x : ℚ) (hx : x ∈ xs) : x ≤ xs.foldr max 0 := by
  induction xs with
  | nil => cases hx
  | cons a t ih =>
    rcases List.mem_cons.mp hx with rfl | hmem
    · exact le_max_left _ _
    · exact le_trans (ih hmem) (le_max_right _ _)

theorem maxAbsCoefficient_nonneg (coeffs : List ℚ) : 0 ≤ maxAbsCoefficient coeffs :=
  foldr_max_nonneg _

theorem abs_getD_le_maxAbsCoefficient (coeffs : List ℚ) (i : ℕ) :
    |coeffs.getD i 0| ≤ maxAbsCoefficient coeffs := by
  by_cases hi : i < coeffs.length
  · rw [List.getD_eq_getElem?_getD, List.getElem?_eq_getElem hi]
    exact le_foldr_max _ _ (List.mem_map_of_mem _ (List.getElem_mem hi))
  · rw [List.getD_eq_getElem?_getD, List.getElem?_eq_none (le_of_not_lt hi)]
    simpa using maxAbsCoefficient_nonneg coeffs

theorem confidence_eq (coeffs : List ℚ) (i : ℕ) :
    (if maxAbsCoefficient coeffs ≠ 0 then
        min 1 (|coeffs.getD i 0| / maxAbsCoefficient coeffs) else 0) =
      |coeffs.getD i 0| / maxAbsCoefficient coeffs := by
  by_cases hm : maxAbsCoefficient coeffs = 0
  · simp [hm]
  · rw [if_pos hm]
    exact min_eq_right ((div_le_one (lt_of_le_of_ne (maxAbsCoefficient_nonneg coeffs)
      (Ne.symm hm))).mpr (abs_getD_le_maxAbsCoefficient coeffs i))

theorem find?_fst_update (cf : List (String × ℚ)) (t : String) (g : ℚ → ℚ) (nm : String) :
    ((cf.map fun p => if p.1 = t then (p.1, g p.2) else p).find? fun p => p.1 == nm) =
      (cf.find? fun p => p.1 == nm).map fun p => if p.1 = t then (p.1, g p.2) else p := by
  induction cf with
  | nil => rfl
  | cons head tail ih =>
    by_cases h1 : head.1 = t
    · subst h1
      by_cases h2 : head.1 = nm
      · subst h2
        simp [List.find?_cons, ih]
      · simp [List.find?_cons, h2, ih]
    · by_cases h2 : head.1 = nm
      · simp [List.find?_cons, h2, h2 ▸ h1]
      · simp [List.find?_cons, h1, h2, ih]

theorem recGetD_found (cf : List (String × ℚ)) (nm : String) (d : ℚ) (p : String × ℚ)
    (hfind : (cf.find? fun q => q.1 == nm) = some p) : recGetD cf nm d = p.2 := by
  simp [recGetD, hfind]

theorem find?_key_eq (cf : List (String × ℚ)) (nm : String) (p : String × ℚ)
    (hfind : (cf.find? fun q => q.1 == nm) = some p) : p.1 = nm := by
  have := List.find?_some hfind
  simpa using this

theorem find?_isSome_of_mem_keys (cf : List (String × ℚ)) (nm : String)
    (h : nm ∈ cf.map Prod.fst) : ∃ p, (cf.find? fun q => q.1 == nm) = some p := by
  obtain ⟨p, hp, rfl⟩ := List.mem_map.mp h
  rcases hfind : cf.find? fun q => q.1 == p.1 with _ | q
  · rw [List.find?_eq_none] at hfind
    exact absurd (by simp) (hfind p hp)
  · exact ⟨q, hfind⟩

theorem simulateDelta_aligned (cf : List (String × ℚ)) (coeffs : List ℚ) (b : ℚ)
    (fns : List String) (i : ℕ) (d : ℚ)
    (halign : cf.map Prod.fst = fns) (hi : i < fns.length) :
    simulateDelta cf i d coeffs b =
      some (specPerturbedPrediction cf coeffs b fns i d) := by
  have hget : (cf.map Prod.fst).get? i = some (fns.getD i "") := by
    rw [halign, List.get?_eq_getElem?, List.getElem?_eq_getElem hi,
      List.getD_eq_getElem?_getD, List.getElem?_eq_getElem hi]
    rfl
  simp only [simulateDelta, hget]
  show some _ = some _
  congr 1
  simp only [specPerturbedPrediction, halign]
  congr 1
  apply List.map_congr_left
  intro nm hnm
  have hmem : nm ∈ cf.map Prod.fst := halign ▸ hnm
  obtain ⟨p, hp⟩ := find?_isSome_of_mem_keys cf nm hmem
  have hkey := find?_key_eq cf nm p hp
  generalize hk : fns.getD i "" = tkey
  have hupd := find?_fst_update cf tkey (fun v => max 0 (min 1 (v + d))) nm
  by_cases hnt : nm = tkey
  · rw [if_pos hnt]
    rw [recGetD_found cf nm 0 p hp]
    have hfound : ((cf.map fun q => if q.1 = tkey then
        (q.1, max 0 (min 1 (q.2 + d))) else q).find? fun q => q.1 == nm) =
        some (tkey, max 0 (min 1 (p.2 + d))) := by
      rw [hupd, hp]
      rw [Option.map_some']
      rw [if_pos (hkey.trans hnt)]
      rw [hkey.trans hnt]
    rw [recGetD_found _ nm 0 _ hfound]
  · rw [if_neg hnt]
    rw [recGetD_found cf nm 0 p hp]
    have hfound : ((cf.map fun q => if q.1 = tkey then
        (q.1, max 0 (min 1 (q.2 + d))) else q).find? fun q => q.1 == nm) = some p := by
      rw [hupd, hp]
      rw [Option.map_some']
      rw [if_neg (hkey ▸ hnt)]
    rw [recGetD_found _ nm 0 _ hfound]

theorem optimizeFeatures_aligned (cf : List (String × ℚ)) (coeffs : List ℚ) (b : ℚ)
    (fns : List String) (step : ℚ) (halign : cf.map Prod.fst = fns) :
    optimizeFeatures cf coeffs b fns step =
      some (optimizeFeaturesSpec cf coeffs b fns step) := by
  simp only [optimizeFeatures]
  rw [mapM_eq_map_of_some _ (specSuggestionAt cf coeffs b fns step)]
  · simp only [optimizeFeaturesSpec, List.filterMap_map, Function.id_comp]
  · intro i hi
    have hilt : i < fns.length := List.mem_range.mp hi
    have hposd := simulateDelta_aligned cf coeffs b fns i step halign hilt
    have hnegd := simulateDelta_aligned cf coeffs b fns i (-step) halign hilt
    simp only [hposd, hnegd, specSuggestionAt]
    set base := predict coeffs b (fns.map fun name => recGetD cf name 0) with hbase
    set pg := specPerturbedPrediction cf coeffs b fns i step - base with hpg
    set ng := specPerturbedPrediction cf coeffs b fns i (-step) - base with hng
    by_cases hA : pg > ng ∧ pg > 0
    · rw [if_pos hA, if_pos hA]
      dsimp only
      rw [if_pos hA.2, confidence_eq coeffs i]
    · rw [if_neg hA, if_neg hA]
      by_cases hB : ng > 0
      · rw [if_pos hB, if_pos hB]
        dsimp only
        rw [if_pos hB, confidence_eq coeffs i]
      · rw [if_neg hB, if_neg hB]
        dsimp only
        rw [if_neg (lt_irrefl 0)]

theorem suggestions_sorted_desc (l : List OptimizationSuggestion) :
    (l.mergeSort fun a b => decide (b.predictedGain ≤ a.predictedGain)).Pairwise
      fun a b => b.predictedGain ≤ a.predictedGain := by
  have h := @List.sorted_mergeSort OptimizationSuggestion
    (fun a b => decide (b.predictedGain ≤ a.predictedGain))
    (fun a b c h1 h2 => by
      simp only [decide_eq_true_eq] at h1 h2 ⊢
      exact le_trans h2 h1)
    (fun a b => by
      simp only [Bool.or_eq_true, decide_eq_true_eq]
      exact le_total _ _)
    l
  exact h.imp fun hab => by simpa using hab

theorem spec_suggestions_gain_pos (cf : List (String × ℚ)) (coeffs : List ℚ) (b : ℚ)
    (fns : List String) (step : ℚ) :
    ∀ s ∈ (optimizeFeaturesSpec cf coeffs b fns step).suggestions, 0 < s.predictedGain := by
  intro s hs
  simp only [optimizeFeaturesSpec, List.mem_mergeSort] at hs
  obtain ⟨i, hi, hsome⟩ := List.mem_filterMap.mp hs
  simp only [specSuggestionAt] at hsome
  split_ifs at hsome with h1 h2
  · injection hsome with h
    subst h
    exact h1.2
  · injection hsome with h
    subst h
    exact h2

theorem spec_lift_eq_sum (cf : List (String × ℚ)) (coeffs : List ℚ) (b : ℚ)
    (fns : List String) (step : ℚ) :
    (optimizeFeaturesSpec cf coeffs b fns step).totalProjectedLift =
      ((optimizeFeaturesSpec cf coeffs b fns step).suggestions.map
        OptimizationSuggestion.predictedGain).sum := rfl


/-- C6 counterexample: `simulateDelta` perturbs the i-th key of the
feature-vector object and predicts over the object's own key order, not
over `featureNames`; with a feature map keyed "b" and model feature list
["a"] the code's only suggestion carries gain 11/20 while the per-named-
feature simulation the claim describes yields gain 1/20. -/
theorem optimizeFeatures_alignment_counterexample :
    ((optimizeFeatures [("b", 1/2)] [1] 0 ["a"] (1/20)).map
      fun r => r.suggestions.map OptimizationSuggestion.predictedGain) = some [11/20] ∧
    (optimizeFeaturesSpec [("b", 1/2)] [1] 0 ["a"] (1/20)).suggestions.map
      OptimizationSuggestion.predictedGain = [1/20] ∧
    (11/20 : ℚ) ≠ 1/20 := by
  refine ⟨?_, ?_, by norm_num⟩
  · simp only [optimizeFeatures]
    rw [show List.range (["a"] : List String).length = [0] from rfl]
    rw [mapM_eq_map_of_some _
      (fun _ => some (⟨"a", 0, 1/20, 1/20, 11/20, 1⟩ : OptimizationSuggestion))]
    · norm_num [List.filterMap]
    · intro a ha
      rcases List.mem_singleton.mp ha with rfl
      simp [simulateDelta, recGetD, predict, maxAbsCoefficient, List.range_succ]
      norm_num [min_def, max_def]
  · have hspec : specSuggestionAt [("b", 2⁻¹)] [1] 0 ["a"] 20⁻¹ 0 =
        some ⟨"a", 0, 20⁻¹, 20⁻¹, 20⁻¹, 1⟩ := by
      simp [specSuggestionAt, specPerturbedPrediction, recGetD, predict, maxAbsCoefficient,
        List.range_succ]
      norm_num [min_def, max_def]
    simp [optimizeFeaturesSpec, List.range_succ, List.filterMap_cons, hspec]


/-- C6 (amended): provided the feature map's keys enumerate exactly as
`featureNames`, `optimizeFeatures` computes precisely the specification's
per-named-feature ±stepSize simulation (clamped to [0,1], keeping the
direction with the larger positive gain, confidence = coefficient
magnitude over the largest coefficient magnitude), its suggestions are
sorted descending by predictedGain, every emitted gain is positive, and
totalProjectedLift is the sum of the suggested gains. -/
theorem optimizeFeatures_contract (cf : List (String × ℚ)) (coeffs : List ℚ) (b : ℚ)
    (fns : List String) (step : ℚ) (halign : cf.map Prod.fst = fns) :
    optimizeFeatures cf coeffs b fns step =
      some (optimizeFeaturesSpec cf coeffs b fns step) ∧
    (optimizeFeaturesSpec cf coeffs b fns step).suggestions.Pairwise
      (fun a b => b.predictedGain ≤ a.predictedGain) ∧
    (∀ s ∈ (optimizeFeaturesSpec cf coeffs b fns step).suggestions, 0 < s.predictedGain) ∧
    (optimizeFeaturesSpec cf coeffs b fns step).totalProjectedLift =
      ((optimizeFeaturesSpec cf coeffs b fns step).suggestions.map
        OptimizationSuggestion.predictedGain).sum :=
  ⟨optimizeFeatures_aligned cf coeffs b fns step halign,
    suggestions_sorted_desc _,
    spec_suggestions_gain_pos cf coeffs b fns step,
    spec_lift_eq_sum cf coeffs b fns step⟩

/-- Witness for C6 (amended) at an aligned concrete feature map. -/
theorem optimizeFeatures_contract_witness :
    optimizeFeatures [("a", 1 / 2), ("b", 1 / 4)] [2, -1] 0 ["a", "b"] (1 / 20) =
      some (optimizeFeaturesSpec [("a", 1 / 2), ("b", 1 / 4)] [2, -1] 0 ["a", "b"] (1 / 20)) ∧
    (optimizeFeaturesSpec [("a", 1 / 2), ("b", 1 / 4)] [2, -1] 0 ["a", "b"]
        (1 / 20)).totalProjectedLift =
      ((optimizeFeaturesSpec [("a", 1 / 2), ("b", 1 / 4)] [2, -1] 0 ["a", "b"]
        (1 / 20)).suggestions.map OptimizationSuggestion.predictedGain).sum :=
  ⟨(optimizeFeatures_contract [("a", 1 / 2), ("b", 1 / 4)] [2, -1] 0 ["a", "b"]
      (1 / 20) rfl).1,
    (optimizeFeatures_contract [("a", 1 / 2), ("b", 1 / 4)] [2, -1] 0 ["a", "b"]
      (1 / 20) rfl).2.2.2⟩
